import Mathlib

/-!
Verification of the sim-lab session orchestrator (`src/App.tsx`) and its
inference-oracle client (`src/services/geminiService.ts`).

The TypeScript code is shallowly embedded as a deterministic state machine:
React `useState` variables become fields of `AppState`; each async handler is
split into a synchronous start phase (everything before the first `await`) and
a settle phase parameterised by the oracle outcome.  Oracle responses are
modelled as already-parsed optional values: `JSON.parse` succeeding with the
requested shape is `some r`, a parse failure (the `catch` branch) is `none`;
a transport-level rejection of the whole call is `Except.error ()` at the
coordinator boundary.  Two ghost fields instrument the state: `requestsIssued`
counts `await`ed oracle calls at their call sites, and `execTrace` records
each invocation of the command coordinator together with the model time `now`
(advanced 8000 units per interval tick, matching `setInterval(runNext, 8000)`).
-/

/-- The three tabs of `activeTab` in App.tsx. -/
inductive Tab
  | analyzer
  | stk
  | termux
deriving DecidableEq, Repr

/-- The STK environment selector (`stkType` state, values from types.ts). -/
inductive StkType
  | SAT_BROWSER
  | PROACTIVE_SIM
  | WIB
deriving DecidableEq, Repr

/-- `riskLevel` enum of `AnalysisResult` (types.ts). -/
inductive RiskLevel
  | Low
  | Medium
  | High
  | Critical
deriving DecidableEq, Repr

/-- Rendering of a risk level into the log string (template interpolation). -/
def riskLevelStr : RiskLevel → String
  | .Low => "Low"
  | .Medium => "Medium"
  | .High => "High"
  | .Critical => "Critical"

/-- Rendering of an StkType into a log string (template interpolation). -/
def stkTypeStr : StkType → String
  | .SAT_BROWSER => "SAT_BROWSER"
  | .PROACTIVE_SIM => "PROACTIVE_SIM"
  | .WIB => "WIB"

/-- `HistoryItem.type` in types.ts. -/
inductive LogType
  | PDU_ENCODE
  | VULN_SCAN
  | STK_GEN
  | SYS_LOG
  | TERMUX_CMD
  | SUCCESS
  | RECV_DATA
deriving DecidableEq, Repr

/-- A log entry (`HistoryItem` of types.ts; the random id and wall-clock
timestamp are omitted, order in the list carries the information). -/
structure HistoryItem where
  type : LogType
  content : String
deriving DecidableEq, Repr

/-- `AnalysisResult` of types.ts; optional TS fields become `Option`. -/
structure AnalysisResult where
  isSilent : Bool
  explanation : String
  riskLevel : RiskLevel
  mitigation : String
  isStkCommand : Option Bool := none
  targetApp : Option String := none
deriving DecidableEq, Repr

/-- `PduComponent` of types.ts. -/
structure PduComponent where
  name : String
  value : String
  description : String
  isVulnerable : Option Bool := none
deriving DecidableEq, Repr

/-- `DecodedPdu` of types.ts. -/
structure DecodedPdu where
  components : List PduComponent
deriving DecidableEq, Repr

/-- `StkBuilderParams` of types.ts as held in the builder form state: the
App initialises every field to a concrete string, so fields are plain
strings here. -/
structure StkBuilderParams where
  commandType : String
  displayText : String
  targetNumber : String
  urlOrData : String
  pinOrPassword : String
deriving DecidableEq, Repr

/-- A partial `StkBuilderParams` object, as produced by the import oracle
response and by the example presets: only some fields are present, and a
JS object spread `{...base, ...patch}` overrides exactly the present ones. -/
structure StkParamsPatch where
  commandType : Option String := none
  displayText : Option String := none
  targetNumber : Option String := none
  urlOrData : Option String := none
  pinOrPassword : Option String := none
deriving DecidableEq, Repr

/-- Object spread `{...base, ...patch}` on builder params. -/
def mergeParams (base : StkBuilderParams) (p : StkParamsPatch) : StkBuilderParams :=
  { commandType := p.commandType.getD base.commandType
    displayText := p.displayText.getD base.displayText
    targetNumber := p.targetNumber.getD base.targetNumber
    urlOrData := p.urlOrData.getD base.urlOrData
    pinOrPassword := p.pinOrPassword.getD base.pinOrPassword }

/-- `StkCommand` of types.ts. -/
structure StkCommand where
  name : String
  description : String
  payload : String
  impact : String
  stkType : Option StkType := none
deriving DecidableEq, Repr

/-- Result shape of `importStkParamsFromPdu`: `{params, stkType}`; the
response schema marks every `params` field optional, hence a patch. -/
structure ImportResult where
  stkType : StkType
  params : StkParamsPatch
deriving DecidableEq, Repr

/-- A `setTimeout` follow-up scheduled by `handleExecuteCommand`: absolute
fire time (schedule time + 2500) and the command type it captures. -/
structure FollowUp where
  fireTime : Nat
  cmdType : String
deriving DecidableEq, Repr

/-- JS `String.prototype.trim`: strips leading and trailing whitespace.
Defined structurally over the character list so that it evaluates by kernel
reduction on concrete inputs. -/
def jsTrim (s : String) : String :=
  String.mk (((s.data.dropWhile Char.isWhitespace).reverse.dropWhile
    Char.isWhitespace).reverse)

/-- JS `a || b` on an optional string field (`undefined` and `""` are falsy). -/
def jsOrElse (o : Option String) (d : String) : String :=
  match o with
  | none => d
  | some s => if s = "" then d else s

/- ## Inference Oracle Client (src/services/geminiService.ts) -/

/-- `analyzePduVulnerability` (geminiService.ts lines 8-46): `JSON.parse` of
the response inside `try`; the `catch` returns the fixed fallback object. -/
def analyzePduVulnerability (resp : Option AnalysisResult) : AnalysisResult :=
  match resp with
  | some r => r
  | none =>
      { isSilent := false
        explanation := "Failed to parse analysis results."
        riskLevel := RiskLevel.Low
        mitigation := "Ensure the PDU string is valid hex format." }

/-- `decodePdu` (geminiService.ts lines 48-89): the `catch` returns
`{ components: [] }`. -/
def decodePdu (resp : Option DecodedPdu) : DecodedPdu :=
  match resp with
  | some r => r
  | none => { components := [] }

/-- `importStkParamsFromPdu` (geminiService.ts lines 91-130): the `catch`
returns `{ stkType: 'SAT_BROWSER', params: { commandType: 'DISPLAY TEXT',
displayText: '', targetNumber: '', urlOrData: '', pinOrPassword: '' } }`. -/
def importStkParamsFromPdu (resp : Option ImportResult) : ImportResult :=
  match resp with
  | some r => r
  | none =>
      { stkType := StkType.SAT_BROWSER
        params :=
          { commandType := some "DISPLAY TEXT"
            displayText := some ""
            targetNumber := some ""
            urlOrData := some ""
            pinOrPassword := some "" } }

/-- `getStkCommandInfo` (geminiService.ts lines 132-169): the final
`JSON.parse(response.text.trim())` is NOT wrapped in a try/catch, so a
malformed response propagates as an error to the caller. -/
def getStkCommandInfo (resp : Option StkCommand) : Except Unit StkCommand :=
  match resp with
  | some r => Except.ok r
  | none => Except.error ()

/-- The fallback `importStkParamsFromPdu` would need to return for the spec
sentence "on parse failure returns a fixed default (SAT_BROWSER, all-empty
params)" to hold literally: every `StkBuilderParams` field an empty string.
Written from the spec's words, for comparison against the source fallback. -/
def specAllEmptyImportFallback : ImportResult :=
  { stkType := StkType.SAT_BROWSER
    params :=
      { commandType := some ""
        displayText := some ""
        targetNumber := some ""
        urlOrData := some ""
        pinOrPassword := some "" } }

/- ## Session State (the useState variables of App.tsx) -/

/-- The session state of App.tsx: one field per `useState` variable, plus
`intervalArmed` for `intervalRef.current !== null`, the model clock `now`,
the list `pendingFollowUps` of scheduled (never stored, never cancelled)
`setTimeout` follow-ups, and two ghost instrumentation fields:
`requestsIssued` counts awaited oracle calls, `execTrace` records each
invocation of `handleExecuteCommand` with its trigger time. -/
structure AppState where
  activeTab : Tab
  pduInput : String
  importPdu : String
  stkType : StkType
  builderParams : StkBuilderParams
  history : List HistoryItem
  isAnalyzing : Bool
  isRunning : Bool
  currentAnalysis : Option AnalysisResult
  decodedPdu : Option DecodedPdu
  stkCommand : Option StkCommand
  educationalContent : String
  intervalArmed : Bool
  pendingFollowUps : List FollowUp
  now : Nat
  requestsIssued : Nat
  execTrace : List (Nat × String)
deriving DecidableEq, Repr

/-- The initial values of every `useState` call in App.tsx. -/
def initState : AppState :=
  { activeTab := Tab.analyzer
    pduInput := ""
    importPdu := ""
    stkType := StkType.SAT_BROWSER
    builderParams :=
      { commandType := "DISPLAY TEXT"
        displayText := ""
        targetNumber := ""
        urlOrData := ""
        pinOrPassword := "" }
    history := []
    isAnalyzing := false
    isRunning := false
    currentAnalysis := none
    decodedPdu := none
    stkCommand := none
    educationalContent := ""
    intervalArmed := false
    pendingFollowUps := []
    now := 0
    requestsIssued := 0
    execTrace := [] }

/-- `addLog` of App.tsx: appends one entry at the end of the history. -/
def addLog (s : AppState) (content : String) (type : LogType) : AppState :=
  { s with history := s.history ++ [{ type := type, content := content }] }

/- ## Request Coordinator: the async handlers of App.tsx -/

/-- Synchronous start phase of `handleAnalysis` (App.tsx lines 104-111): the
blank-input guard, setting the in-flight flag, clearing both current results,
the two submission log lines, then issuing the paired analyze+decode oracle
requests (`Promise.all`, two requests). A blank input leaves the state
untouched. -/
def handleAnalysisStart (s : AppState) : AppState :=
  if jsTrim s.pduInput = "" then s
  else
    let s1 := { s with isAnalyzing := true, decodedPdu := none, currentAnalysis := none }
    let s2 := addLog s1
      ("pkg install sms-utils && python3 pdu_parse.py --hex " ++ s.pduInput.take 10 ++ "...")
      LogType.TERMUX_CMD
    let s3 := addLog s2 "[ANALYZING] Probing for protocol anomalies..." LogType.VULN_SCAN
    { s3 with requestsIssued := s3.requestsIssued + 2 }

/-- Settle phase of `handleAnalysis` (App.tsx lines 113-131): on success of
the paired call, stores both results and logs the result lines (the DETECTED
line only when the analysis flags an STK command); on rejection, logs the one
generic failure line; the `finally` clears the in-flight flag either way. -/
def handleAnalysisSettle (s : AppState)
    (outcome : Except Unit (AnalysisResult × DecodedPdu)) : AppState :=
  match outcome with
  | Except.ok (vulnResult, decodeResult) =>
      let s1 := { s with currentAnalysis := some vulnResult, decodedPdu := some decodeResult }
      let s2 := addLog s1 ("Scan complete. Risk: " ++ riskLevelStr vulnResult.riskLevel ++ ".")
        LogType.VULN_SCAN
      let s3 :=
        if vulnResult.isStkCommand = some true then
          addLog s2 ("DETECTED: Binary SMS targeting " ++
            jsOrElse vulnResult.targetApp "SIM Application" ++ ".") LogType.SYS_LOG
        else s2
      let s4 := addLog s3 ("[DECODED] Bitstream parsed into " ++
        toString decodeResult.components.length ++ " components.") LogType.SUCCESS
      { s4 with isAnalyzing := false }
  | Except.error _ =>
      let s1 := addLog s "ERR: Analysis failed." LogType.SYS_LOG
      { s1 with isAnalyzing := false }

/-- Synchronous start phase of `handleImportPdu` (App.tsx lines 134-137):
blank-input guard, in-flight flag, one log line, one oracle request issued. -/
def handleImportPduStart (s : AppState) : AppState :=
  if jsTrim s.importPdu = "" then s
  else
    let s1 := { s with isAnalyzing := true }
    let s2 := addLog s1 "[STK] Importing parameters from existing PDU hex..." LogType.SYS_LOG
    { s2 with requestsIssued := s2.requestsIssued + 1 }

/-- Settle phase of `handleImportPdu` (App.tsx lines 138-151): on success,
stores the returned stkType and spreads the returned params over the previous
builder params; on rejection logs a failure line; the `finally` clears the
in-flight flag and blanks the import buffer either way. -/
def handleImportPduSettle (s : AppState) (outcome : Except Unit ImportResult) : AppState :=
  match outcome with
  | Except.ok result =>
      let s1 := { s with stkType := result.stkType,
                         builderParams := mergeParams s.builderParams result.params }
      let s2 := addLog s1 "[STK] Form pre-filled from PDU data." LogType.SUCCESS
      { s2 with isAnalyzing := false, importPdu := "" }
  | Except.error _ =>
      let s1 := addLog s "[ERR] Failed to parse PDU for builder." LogType.SYS_LOG
      { s1 with isAnalyzing := false, importPdu := "" }

/-- Synchronous start phase of `handleExecuteCommand` (App.tsx lines
154-158): no guard of any kind; sets the in-flight flag, logs the transport
echo only when interactive, logs the generation notice, records the
invocation in the ghost trace and issues the generate-command request. -/
def handleExecuteCommandStart (s : AppState) (cmdType : String) (isAuto : Bool)
    (params : Option StkParamsPatch) : AppState :=
  let s1 := { s with isAnalyzing := true }
  let s2 :=
    if isAuto then s1
    else addLog s1 "termux-sms-send -b -n [TARGET] \"STK_PAYLOAD_GEN\"" LogType.TERMUX_CMD
  let s3 := addLog s2 ("Generating invisible " ++ stkTypeStr s.stkType ++ " " ++
    jsOrElse (params.bind (fun p => p.commandType)) "EXECUTE" ++ " COMMAND...") LogType.SYS_LOG
  { s3 with requestsIssued := s3.requestsIssued + 1,
            execTrace := s3.execTrace ++ [(s3.now, cmdType)] }

/-- Settle phase of `handleExecuteCommand` (App.tsx lines 159-177): on
success stores the command, logs the payload-ready line, and schedules the
2500-unit `setTimeout` follow-up exactly when `isRunning || (!isAuto &&
!params)`; on error logs the single generic failure line; the `finally`
clears the in-flight flag on both paths. -/
def handleExecuteCommandSettle (s : AppState) (cmdType : String) (isAuto : Bool)
    (params : Option StkParamsPatch) (outcome : Except Unit StkCommand) : AppState :=
  match outcome with
  | Except.ok info =>
      let s1 := { s with stkCommand := some info }
      let s2 := addLog s1 ("STK payload ready: " ++ info.name) LogType.STK_GEN
      let s3 :=
        if s2.isRunning || (!isAuto && params.isNone) then
          { s2 with pendingFollowUps :=
              s2.pendingFollowUps ++ [{ fireTime := s2.now + 2500, cmdType := cmdType }] }
        else s2
      { s3 with isAnalyzing := false }
  | Except.error _ =>
      let s1 := addLog s ("Command generation failed for " ++ cmdType ++ ".") LogType.SYS_LOG
      { s1 with isAnalyzing := false }

/-- `handleExecuteCommand` end to end: start phase, oracle settlement. -/
def handleExecuteCommand (s : AppState) (cmdType : String) (isAuto : Bool)
    (params : Option StkParamsPatch) (outcome : Except Unit StkCommand) : AppState :=
  handleExecuteCommandSettle (handleExecuteCommandStart s cmdType isAuto params)
    cmdType isAuto params outcome

/-- The body of the `setTimeout` callback scheduled by `handleExecuteCommand`
(App.tsx lines 165-170): logs the intercept notice, awaits
`simulateExfiltratedData` (one oracle request), then appends the two
completion log lines. Nothing ever cancels this timeout. -/
def fireFollowUp (s : AppState) (cmdType : String) (mockData : String) : AppState :=
  let s1 := addLog s "[INTERCEPT] Incoming silent recovery SMS from target..." LogType.SYS_LOG
  let s2 := { s1 with requestsIssued := s1.requestsIssued + 1 }
  let s3 := addLog s2 ("RECOVERY_DATA: " ++ mockData) LogType.RECV_DATA
  addLog s3 "[SYSTEM] Information exfiltrated back via silent SMS." LogType.SUCCESS

/-- Synchronous start phase of `fetchEducation` (App.tsx lines 219-221): no
in-flight guard; sets the flag, logs, issues one oracle request. -/
def fetchEducationStart (s : AppState) (topic : String) : AppState :=
  let s1 := { s with isAnalyzing := true }
  let s2 := addLog s1 ("[INFO] Retrieving educational data for: " ++ topic) LogType.SYS_LOG
  { s2 with requestsIssued := s2.requestsIssued + 1 }

/-- Settle phase of `fetchEducation` (App.tsx lines 222-229). -/
def fetchEducationSettle (s : AppState) (outcome : Except Unit String) : AppState :=
  match outcome with
  | Except.ok info => { s with educationalContent := info, isAnalyzing := false }
  | Except.error _ =>
      let s1 := addLog s "[ERR] Failed to fetch education module." LogType.SYS_LOG
      { s1 with isAnalyzing := false }

/- ## Simulation Scheduler (App.tsx lines 185-217) -/

/-- The fixed ordered command list `autoCommands` of App.tsx. -/
def autoCommands : List String :=
  ["Get Location", "Exfiltrate IMEI", "Request Subscriber ID", "Query Cell ID"]

/-- `stopSimulation` (App.tsx lines 210-217): clears the running flag,
cancels the interval if armed, and always logs the halt notice. -/
def stopSimulation (s : AppState) : AppState :=
  let s1 := { s with isRunning := false, intervalArmed := false }
  addLog s1 "[SYSTEM] Simulation halted by operator." LogType.SYS_LOG

/-- The `runNext` closure of `startSimulation` (App.tsx lines 196-204),
acting on the state together with the captured mutable `index`. When the
cursor has passed the end of the list it logs completion and stops; otherwise
it fires `handleExecuteCommand(autoCommands[index], true)` (whose settlement
outcome for step `i` is `omega i`) and advances the cursor. -/
def runNext (omega : Nat → Except Unit StkCommand) (si : AppState × Nat) : AppState × Nat :=
  let s := si.1
  let index := si.2
  if h : index < autoCommands.length then
    (handleExecuteCommand s (autoCommands.get ⟨index, h⟩) true none (omega index), index + 1)
  else
    (stopSimulation (addLog s "[SYSTEM] Extensive audit sequence completed." LogType.SUCCESS),
      index)

/-- `startSimulation` (App.tsx lines 190-208): sets the running flag, logs
the two start lines, runs step 0 immediately via `runNext` with the cursor at
0, then arms the 8000-unit repeating interval. -/
def startSimulation (omega : Nat → Except Unit StkCommand) (s : AppState) : AppState × Nat :=
  let s1 := { s with isRunning := true }
  let s2 := addLog s1 "sh start_extensive_audit.sh" LogType.TERMUX_CMD
  let s3 := addLog s2
    "[SYSTEM] Starting automated vulnerability research sequence (Non-Root)..." LogType.SYS_LOG
  let si := runNext omega (s3, 0)
  ({ si.1 with intervalArmed := true }, si.2)

/-- One tick of the repeating interval: fires only while the interval is
armed, 8000 time-units after the previous trigger, and runs `runNext`. -/
def tick (omega : Nat → Except Unit StkCommand) (si : AppState × Nat) : AppState × Nat :=
  if si.1.intervalArmed then
    runNext omega ({ si.1 with now := si.1.now + 8000 }, si.2)
  else si

/-- The scheduler trace: state and cursor after `start()` followed by `n`
interval ticks. -/
def simTrace (omega : Nat → Except Unit StkCommand) (s : AppState) : Nat → AppState × Nat
  | 0 => startSimulation omega s
  | n + 1 => tick omega (simTrace omega s n)

/- ## Session reset and preset loader -/

/-- `clearHistory` (App.tsx lines 232-240), the reset-session operation:
empties the log, clears the three current results, blanks `pduInput` and
`educationalContent`, and — only if a scripted run is active — calls
`stopSimulation` (which also appends its halt notice to the just-emptied
log, since `addLog` uses a functional updater). -/
def clearHistory (s : AppState) : AppState :=
  let s1 := { s with history := [], currentAnalysis := none, decodedPdu := none,
                     stkCommand := none, pduInput := "", educationalContent := "" }
  if s1.isRunning then stopSimulation s1 else s1

/-- One entry of the `educationalExamples` catalog (App.tsx lines 55-82).
JS field presence becomes `Option`. -/
structure ExampleEntry where
  name : String
  kind : Tab
  description : String
  pdu : Option String := none
  params : Option StkParamsPatch := none
  stk : Option StkType := none
  content : Option String := none
deriving DecidableEq, Repr

/-- The "Simjacker Location" catalog entry (App.tsx lines 68-74). -/
def simjackerLocationExample : ExampleEntry :=
  { name := "Simjacker Location"
    kind := Tab.stk
    params := some { commandType := some "PROVIDE LOCAL INFO",
                     displayText := some "Get Location",
                     urlOrData := some "MCC/MNC/LAC/CellID" }
    stk := some StkType.SAT_BROWSER
    description := "Classic S@T Browser vulnerability used to silently exfiltrate cell location data." }

/-- The `educationalExamples` catalog (App.tsx lines 55-82). -/
def educationalExamples : List ExampleEntry :=
  [ { name := "Non-Root Setup Guide"
      kind := Tab.termux
      description := "How to configure Termux for SMS research without requiring root access."
      content := some ("Termux Setup (Non-Root):\n1. Install Termux:API app from F-Droid.\n2. Run: pkg install termux-api\n3. Grant SMS permissions in Android settings for Termux:API.\n4. Use: termux-sms-send -n [num] [msg]\n\nThis method uses the Android OS layer to send binary payloads, which is safer and doesn\x27t risk bricking your baseband via direct root AT command access.") },
    { name := "Silent SMS (Type 0)"
      kind := Tab.analyzer
      pdu := some "079144775810065011000A81100000000040"
      description := "A network ping that doesn\x27t show up on the recipient\x27s UI but returns a delivery receipt." },
    simjackerLocationExample,
    { name := "WIB IMEI Audit"
      kind := Tab.stk
      params := some { commandType := some "DISPLAY TEXT",
                       displayText := some "Audit Mode",
                       urlOrData := some "IMEI_REQ" }
      stk := some StkType.WIB
      description := "Targets the SmartTrust WIB applet to request hardware identifiers." } ]

/-- `applyExample` (App.tsx lines 84-102). Branch guards mirror the JS
truthiness tests: `ex.pdu` is truthy when present and non-empty, `ex.params`
(an object) is truthy when present. The stk branch spreads the example's
params over the current builder params; `ex.stk` is present on every stk
catalog entry (`setStkType(ex.stk as any)`). -/
def applyExample (s : AppState) (ex : ExampleEntry) : AppState :=
  if ex.kind = Tab.analyzer ∧ jsOrElse ex.pdu "" ≠ "" then
    addLog { s with activeTab := Tab.analyzer, pduInput := (ex.pdu.getD "") }
      ("[EXAMPLE] Loaded " ++ ex.name ++ " into Analyzer.") LogType.SYS_LOG
  else if ex.kind = Tab.stk ∧ ex.params.isSome then
    addLog { s with activeTab := Tab.stk,
                    stkType := ex.stk.getD s.stkType,
                    builderParams := mergeParams s.builderParams (ex.params.getD {}) }
      ("[EXAMPLE] Loaded " ++ ex.name ++ " into STK Builder.") LogType.SYS_LOG
  else if ex.kind = Tab.termux then
    addLog { s with activeTab := Tab.termux, educationalContent := ex.content.getD "" }
      "[INFO] Displaying Non-Root configuration guide." LogType.SYS_LOG
  else s

/- ## Helper lemmas on the coordinator's settle and combined transitions -/

theorem history_settle (s : AppState) (c : String) (a : Bool) (p : Option StkParamsPatch)
    (out : Except Unit StkCommand) :
    (handleExecuteCommandSettle s c a p out).history =
      s.history ++ (match out with
        | Except.ok info =>
            [{ type := LogType.STK_GEN, content := "STK payload ready: " ++ info.name }]
        | Except.error _ =>
            [{ type := LogType.SYS_LOG,
               content := "Command generation failed for " ++ c ++ "." }]) := by
  cases out with
  | ok info =>
      simp only [handleExecuteCommandSettle]
      split <;> rfl
  | error e => rfl

@[simp] theorem execTrace_settle (s : AppState) (c : String) (a : Bool)
    (p : Option StkParamsPatch) (out : Except Unit StkCommand) :
    (handleExecuteCommandSettle s c a p out).execTrace = s.execTrace := by
  cases out with
  | ok info =>
      simp only [handleExecuteCommandSettle]
      split <;> rfl
  | error e => rfl

@[simp] theorem now_settle (s : AppState) (c : String) (a : Bool)
    (p : Option StkParamsPatch) (out : Except Unit StkCommand) :
    (handleExecuteCommandSettle s c a p out).now = s.now := by
  cases out with
  | ok info =>
      simp only [handleExecuteCommandSettle]
      split <;> rfl
  | error e => rfl

@[simp] theorem isRunning_settle (s : AppState) (c : String) (a : Bool)
    (p : Option StkParamsPatch) (out : Except Unit StkCommand) :
    (handleExecuteCommandSettle s c a p out).isRunning = s.isRunning := by
  cases out with
  | ok info =>
      simp only [handleExecuteCommandSettle]
      split <;> rfl
  | error e => rfl

@[simp] theorem intervalArmed_settle (s : AppState) (c : String) (a : Bool)
    (p : Option StkParamsPatch) (out : Except Unit StkCommand) :
    (handleExecuteCommandSettle s c a p out).intervalArmed = s.intervalArmed := by
  cases out with
  | ok info =>
      simp only [handleExecuteCommandSettle]
      split <;> rfl
  | error e => rfl

@[simp] theorem execTrace_execCmd (s : AppState) (c : String) (a : Bool)
    (p : Option StkParamsPatch) (out : Except Unit StkCommand) :
    (handleExecuteCommand s c a p out).execTrace = s.execTrace ++ [(s.now, c)] := by
  unfold handleExecuteCommand
  rw [execTrace_settle]
  cases a <;> rfl

@[simp] theorem now_execCmd (s : AppState) (c : String) (a : Bool)
    (p : Option StkParamsPatch) (out : Except Unit StkCommand) :
    (handleExecuteCommand s c a p out).now = s.now := by
  unfold handleExecuteCommand
  rw [now_settle]
  cases a <;> rfl

@[simp] theorem isRunning_execCmd (s : AppState) (c : String) (a : Bool)
    (p : Option StkParamsPatch) (out : Except Unit StkCommand) :
    (handleExecuteCommand s c a p out).isRunning = s.isRunning := by
  unfold handleExecuteCommand
  rw [isRunning_settle]
  cases a <;> rfl

@[simp] theorem intervalArmed_execCmd (s : AppState) (c : String) (a : Bool)
    (p : Option StkParamsPatch) (out : Except Unit StkCommand) :
    (handleExecuteCommand s c a p out).intervalArmed = s.intervalArmed := by
  unfold handleExecuteCommand
  rw [intervalArmed_settle]
  cases a <;> rfl

theorem mem_history_execCmd (s : AppState) (c : String) (a : Bool)
    (p : Option StkParamsPatch) (out : Except Unit StkCommand) (x : HistoryItem)
    (hx : x ∈ s.history) :
    x ∈ (handleExecuteCommand s c a p out).history := by
  unfold handleExecuteCommand
  rw [history_settle]
  refine List.mem_append_left _ ?_
  cases a <;> simp [handleExecuteCommandStart, addLog, hx]

/- ## Claim theorems -/

/-- Claim C3: when the oracle response to analyzeVulnerability cannot be
parsed into the expected AnalysisResult shape, the operation returns exactly
the fixed fallback (isSilent false, riskLevel Low, the two fixed strings, no
isStkCommand, no targetApp) and, being a total function, never raises. -/
theorem analyze_parse_failure_returns_fixed_fallback :
    analyzePduVulnerability none =
      { isSilent := false
        explanation := "Failed to parse analysis results."
        riskLevel := RiskLevel.Low
        mitigation := "Ensure the PDU string is valid hex format."
        isStkCommand := none
        targetApp := none } := rfl

/-- Claim C4: when the oracle response to decode fails to parse, decode
returns exactly the empty-but-valid DecodedPdu with no components, never
null and (being total) never raises. -/
theorem decode_parse_failure_returns_empty_components :
    decodePdu none = { components := [] } := rfl

/-- Claim C5 counterexample: the import fallback is not all-empty — its
commandType field is the string DISPLAY TEXT, not the empty string, so the
fallback differs from the all-empty default the claim describes. -/
theorem import_fallback_commandType_not_empty :
    (importStkParamsFromPdu none).params.commandType = some "DISPLAY TEXT" ∧
    importStkParamsFromPdu none ≠ specAllEmptyImportFallback := by
  refine ⟨rfl, ?_⟩
  decide

/-- Claim C5 (amended): when the oracle response to importParams fails to
parse, the operation returns the fixed default of stkType SAT_BROWSER with
commandType DISPLAY TEXT and the four remaining params empty strings. -/
theorem import_parse_failure_returns_fixed_default :
    importStkParamsFromPdu none =
      { stkType := StkType.SAT_BROWSER
        params :=
          { commandType := some "DISPLAY TEXT"
            displayText := some ""
            targetNumber := some ""
            urlOrData := some ""
            pinOrPassword := some "" } } := rfl

/-- Claim C6: a malformed oracle response to generateCommand propagates as an
error out of the Oracle Client (no fallback is synthesized), and the Request
Coordinator's settle phase turns every settlement failure into exactly one
generic failure log line, never throws (it is a total function), and clears
the in-flight flag on both the success and the failure path. -/
theorem generate_command_error_propagates_coordinator_catches :
    getStkCommandInfo none = Except.error () ∧
    (∀ (s : AppState) (c : String) (a : Bool) (p : Option StkParamsPatch),
      (handleExecuteCommandSettle s c a p (Except.error ())).history =
        s.history ++ [{ type := LogType.SYS_LOG,
                        content := "Command generation failed for " ++ c ++ "." }] ∧
      (∀ out, (handleExecuteCommand s c a p out).isAnalyzing = false)) := by
  refine ⟨rfl, fun s c a p => ⟨rfl, fun out => ?_⟩⟩
  unfold handleExecuteCommand
  cases out <;> rfl

/-- Claim C9: for every prior builder-params state, applying the Simjacker
Location preset sets the active view to the stk builder view, sets the
environment to SAT_BROWSER, merges commandType PROVIDE LOCAL INFO (plus the
preset displayText and urlOrData) into the builder params, and leaves the
fields the preset does not specify — pinOrPassword and targetNumber —
unchanged. -/
theorem simjacker_preset_sets_view_env_and_merges (s : AppState) :
    (applyExample s simjackerLocationExample).activeTab = Tab.stk ∧
    (applyExample s simjackerLocationExample).stkType = StkType.SAT_BROWSER ∧
    (applyExample s simjackerLocationExample).builderParams.commandType =
      "PROVIDE LOCAL INFO" ∧
    (applyExample s simjackerLocationExample).builderParams.displayText =
      "Get Location" ∧
    (applyExample s simjackerLocationExample).builderParams.urlOrData =
      "MCC/MNC/LAC/CellID" ∧
    (applyExample s simjackerLocationExample).builderParams.pinOrPassword =
      s.builderParams.pinOrPassword ∧
    (applyExample s simjackerLocationExample).builderParams.targetNumber =
      s.builderParams.targetNumber := by
  simp [applyExample, simjackerLocationExample, mergeParams, jsOrElse, addLog]

/-- Claim C10: submitting an analysis clears the current AnalysisResult and
DecodedPdu synchronously in the start phase, before the oracle calls settle,
and if the paired analyze-and-decode request then fails, both remain absent —
the previous results are not restored. -/
theorem analysis_clears_results_and_failure_restores_nothing (s : AppState)
    (h : jsTrim s.pduInput ≠ "") :
    (handleAnalysisStart s).currentAnalysis = none ∧
    (handleAnalysisStart s).decodedPdu = none ∧
    (handleAnalysisSettle (handleAnalysisStart s) (Except.error ())).currentAnalysis = none ∧
    (handleAnalysisSettle (handleAnalysisStart s) (Except.error ())).decodedPdu = none := by
  simp [handleAnalysisStart, handleAnalysisSettle, addLog, h]

/-- A concrete demo state holding a previous analysis result and a non-blank
analyzer input buffer. -/
def analysisDemoState : AppState :=
  { initState with
      pduInput := "AB"
      currentAnalysis := some (analyzePduVulnerability none) }

/-- Witness for the C10 theorem at `analysisDemoState`. -/
theorem analysis_clears_results_witness :
    jsTrim analysisDemoState.pduInput ≠ "" ∧
    ((handleAnalysisStart analysisDemoState).currentAnalysis = none ∧
     (handleAnalysisStart analysisDemoState).decodedPdu = none ∧
     (handleAnalysisSettle (handleAnalysisStart analysisDemoState)
        (Except.error ())).currentAnalysis = none ∧
     (handleAnalysisSettle (handleAnalysisStart analysisDemoState)
        (Except.error ())).decodedPdu = none) :=
  ⟨by decide, analysis_clears_results_and_failure_restores_nothing _ (by decide)⟩

/-- A concrete session state in which an oracle request is in flight
(`isAnalyzing = true`) and both hex input buffers are non-blank. -/
def inflightDemoState : AppState :=
  { initState with
      isAnalyzing := true
      pduInput := "AB"
      importPdu := "CD" }

/-- Claim C1 counterexample: with the in-flight flag true, every gated
operation still proceeds and issues its oracle request(s) — execute-command
issues one more request, submit-for-analysis two more (the paired call),
import-params and fetch-topic one more each. No gated operation is rejected,
so a second oracle request is issued before the first settles. -/
theorem gated_ops_not_rejected_while_inflight :
    inflightDemoState.isAnalyzing = true ∧
    (handleExecuteCommandStart inflightDemoState "Get Location" false none).requestsIssued =
      inflightDemoState.requestsIssued + 1 ∧
    (handleAnalysisStart inflightDemoState).requestsIssued =
      inflightDemoState.requestsIssued + 2 ∧
    (handleImportPduStart inflightDemoState).requestsIssued =
      inflightDemoState.requestsIssued + 1 ∧
    (fetchEducationStart inflightDemoState "Simjacker Vulnerability Summary").requestsIssued =
      inflightDemoState.requestsIssued + 1 := by
  refine ⟨rfl, rfl, ?_, ?_, rfl⟩ <;> decide

/-- Claim C1 (amended): the in-flight flag is set and cleared around each
request but is never checked by any gated operation: while it is true,
execute-command and fetch-topic proceed unconditionally and
submit-for-analysis and import-params proceed subject only to their blank
input guards, each issuing its oracle request(s); so a second request can be
issued before the first settles. -/
theorem inflight_flag_never_gates_operations (s : AppState)
    (hin : s.isAnalyzing = true) :
    (∀ (c : String) (a : Bool) (p : Option StkParamsPatch),
      (handleExecuteCommandStart s c a p).requestsIssued = s.requestsIssued + 1) ∧
    (jsTrim s.pduInput ≠ "" →
      (handleAnalysisStart s).requestsIssued = s.requestsIssued + 2) ∧
    (jsTrim s.importPdu ≠ "" →
      (handleImportPduStart s).requestsIssued = s.requestsIssued + 1) ∧
    (∀ topic : String,
      (fetchEducationStart s topic).requestsIssued = s.requestsIssued + 1) := by
  refine ⟨fun c a p => by cases a <;> rfl, fun h => ?_, fun h => ?_, fun topic => rfl⟩
  · simp [handleAnalysisStart, addLog, h]
  · simp [handleImportPduStart, addLog, h]

/-- Witness for the C1 amended theorem at `inflightDemoState`. -/
theorem inflight_flag_never_gates_operations_witness :
    inflightDemoState.isAnalyzing = true ∧
    jsTrim inflightDemoState.pduInput ≠ "" ∧
    (handleAnalysisStart inflightDemoState).requestsIssued =
      inflightDemoState.requestsIssued + 2 :=
  ⟨rfl, by decide,
    (inflight_flag_never_gates_operations inflightDemoState rfl).2.1 (by decide)⟩

/-- A concrete session state with a scripted run active, an armed timer, a
non-blank import buffer and a non-blank analyzer buffer. -/
def resetDemoState : AppState :=
  { initState with
      importPdu := "AB"
      pduInput := "CD"
      isRunning := true
      intervalArmed := true }

/-- Claim C2 counterexample: reset-session does not clear every input buffer
— at `resetDemoState` the import buffer keeps its old contents — and when a
scripted run was active the resulting log is not empty: the stop routine
appends its halt notice after the log has been emptied. -/
theorem reset_session_not_total_counterexample :
    (clearHistory resetDemoState).importPdu = "AB" ∧ ("AB" : String) ≠ "" ∧
    (clearHistory resetDemoState).history ≠ [] := by
  refine ⟨rfl, by decide, by decide⟩

/-- Claim C2 (amended): reset-session, in one transition, empties the log
(except that, when a scripted run was active, the halt notice is appended to
the just-emptied log), clears the current AnalysisResult, DecodedPdu and
StkCommand, blanks the analyzer input buffer and the educational content,
sets running to false and cancels the repeating timer when a run was active;
the import buffer and the builder params are left unchanged. -/
theorem reset_session_characterisation (s : AppState) :
    (clearHistory s).history =
      (if s.isRunning then
        [{ type := LogType.SYS_LOG, content := "[SYSTEM] Simulation halted by operator." }]
       else []) ∧
    (clearHistory s).currentAnalysis = none ∧
    (clearHistory s).decodedPdu = none ∧
    (clearHistory s).stkCommand = none ∧
    (clearHistory s).pduInput = "" ∧
    (clearHistory s).educationalContent = "" ∧
    (clearHistory s).isRunning = false ∧
    (clearHistory s).intervalArmed = (if s.isRunning then false else s.intervalArmed) ∧
    (clearHistory s).importPdu = s.importPdu ∧
    (clearHistory s).builderParams = s.builderParams ∧
    (clearHistory s).pendingFollowUps = s.pendingFollowUps := by
  by_cases h : s.isRunning = true <;>
    simp [clearHistory, stopSimulation, addLog, h]

/-- Claim C8: after a successful executeCommand settlement, a follow-up is
scheduled at a fixed 2500 time-unit offset exactly when a scripted run is
active or the call was interactive without pre-supplied parameters; a failed
settlement schedules nothing; once scheduled, neither session reset nor
stopping the scripted run removes it (fire-and-forget), and when it fires it
performs one more oracle call and appends the intercept line followed by the
two completion log lines. -/
theorem followup_schedule_condition_and_fire_and_forget (s : AppState)
    (c : String) (a : Bool) (p : Option StkParamsPatch) (info : StkCommand) :
    (handleExecuteCommandSettle s c a p (Except.ok info)).pendingFollowUps =
      (if s.isRunning || (!a && p.isNone) then
        s.pendingFollowUps ++ [{ fireTime := s.now + 2500, cmdType := c }]
       else s.pendingFollowUps) ∧
    (handleExecuteCommandSettle s c a p (Except.error ())).pendingFollowUps =
      s.pendingFollowUps ∧
    (∀ s2 : AppState, (clearHistory s2).pendingFollowUps = s2.pendingFollowUps) ∧
    (∀ s2 : AppState, (stopSimulation s2).pendingFollowUps = s2.pendingFollowUps) ∧
    (∀ (s2 : AppState) (c2 m : String),
      (fireFollowUp s2 c2 m).requestsIssued = s2.requestsIssued + 1 ∧
      (fireFollowUp s2 c2 m).history = s2.history ++
        [{ type := LogType.SYS_LOG,
           content := "[INTERCEPT] Incoming silent recovery SMS from target..." }] ++
        [{ type := LogType.RECV_DATA, content := "RECOVERY_DATA: " ++ m },
         { type := LogType.SUCCESS,
           content := "[SYSTEM] Information exfiltrated back via silent SMS." }]) := by
  refine ⟨?_, rfl, ?_, fun s2 => rfl, fun s2 c2 m => ⟨rfl, ?_⟩⟩
  · by_cases h : (s.isRunning || (!a && p.isNone)) = true <;>
      simp [handleExecuteCommandSettle, addLog, h]
  · intro s2
    by_cases h : s2.isRunning = true <;>
      simp [clearHistory, stopSimulation, addLog, h]
  · simp [fireFollowUp, addLog]

/- ## Scheduler trace development (claim about startSimulation) -/

/-- The session state after `startSimulation` has set the running flag and
logged its two start lines, just before step 0 executes. -/
def simStartState : AppState :=
  addLog (addLog { initState with isRunning := true }
    "sh start_extensive_audit.sh" LogType.TERMUX_CMD)
    "[SYSTEM] Starting automated vulnerability research sequence (Non-Root)..."
    LogType.SYS_LOG

/-- The state right after `startSimulation`: step 0 executed, interval armed. -/
def simState0 (omega : Nat → Except Unit StkCommand) : AppState :=
  { handleExecuteCommand simStartState "Get Location" true none (omega 0) with
      intervalArmed := true }

/-- The state after the first interval tick (step 1). -/
def simState1 (omega : Nat → Except Unit StkCommand) : AppState :=
  handleExecuteCommand { simState0 omega with now := (simState0 omega).now + 8000 }
    "Exfiltrate IMEI" true none (omega 1)

/-- The state after the second interval tick (step 2). -/
def simState2 (omega : Nat → Except Unit StkCommand) : AppState :=
  handleExecuteCommand { simState1 omega with now := (simState1 omega).now + 8000 }
    "Request Subscriber ID" true none (omega 2)

/-- The state after the third interval tick (step 3). -/
def simState3 (omega : Nat → Except Unit StkCommand) : AppState :=
  handleExecuteCommand { simState2 omega with now := (simState2 omega).now + 8000 }
    "Query Cell ID" true none (omega 3)

/-- The state after the fourth interval tick: cursor past the end, completion
logged, scheduler stopped. -/
def simState4 (omega : Nat → Except Unit StkCommand) : AppState :=
  stopSimulation (addLog { simState3 omega with now := (simState3 omega).now + 8000 }
    "[SYSTEM] Extensive audit sequence completed." LogType.SUCCESS)

theorem schedTickStep (omega : Nat → Except Unit StkCommand) (s : AppState) (i : Nat)
    (c : String) (h : s.intervalArmed = true) (hi : i < autoCommands.length)
    (hc : autoCommands.get ⟨i, hi⟩ = c) :
    tick omega (s, i) =
      (handleExecuteCommand { s with now := s.now + 8000 } c true none (omega i), i + 1) := by
  subst hc
  simp [tick, h, runNext, hi]

theorem schedTickEnd (omega : Nat → Except Unit StkCommand) (s : AppState)
    (h : s.intervalArmed = true) :
    tick omega (s, 4) =
      (stopSimulation (addLog { s with now := s.now + 8000 }
        "[SYSTEM] Extensive audit sequence completed." LogType.SUCCESS), 4) := by
  simp [tick, h, runNext, autoCommands]

theorem simState0_armed (omega : Nat → Except Unit StkCommand) :
    (simState0 omega).intervalArmed = true := rfl

theorem simState0_now (omega : Nat → Except Unit StkCommand) :
    (simState0 omega).now = 0 := by
  simp [simState0, simStartState, addLog, initState]

theorem simState0_run (omega : Nat → Except Unit StkCommand) :
    (simState0 omega).isRunning = true := by
  simp [simState0, simStartState, addLog, initState]

theorem simState0_exec (omega : Nat → Except Unit StkCommand) :
    (simState0 omega).execTrace = [(0, "Get Location")] := by
  simp [simState0, simStartState, addLog, initState]

theorem simState1_armed (omega : Nat → Except Unit StkCommand) :
    (simState1 omega).intervalArmed = true := by
  simp [simState1, simState0_armed]

theorem simState1_now (omega : Nat → Except Unit StkCommand) :
    (simState1 omega).now = 8000 := by
  simp [simState1, simState0_now]

theorem simState1_exec (omega : Nat → Except Unit StkCommand) :
    (simState1 omega).execTrace = [(0, "Get Location"), (8000, "Exfiltrate IMEI")] := by
  simp [simState1, simState0_exec, simState0_now]

theorem simState2_armed (omega : Nat → Except Unit StkCommand) :
    (simState2 omega).intervalArmed = true := by
  simp [simState2, simState1_armed]

theorem simState2_now (omega : Nat → Except Unit StkCommand) :
    (simState2 omega).now = 16000 := by
  simp [simState2, simState1_now]

theorem simState2_exec (omega : Nat → Except Unit StkCommand) :
    (simState2 omega).execTrace =
      [(0, "Get Location"), (8000, "Exfiltrate IMEI"), (16000, "Request Subscriber ID")] := by
  simp [simState2, simState1_exec, simState1_now]

theorem simState3_armed (omega : Nat → Except Unit StkCommand) :
    (simState3 omega).intervalArmed = true := by
  simp [simState3, simState2_armed]

theorem simState3_exec (omega : Nat → Except Unit StkCommand) :
    (simState3 omega).execTrace =
      [(0, "Get Location"), (8000, "Exfiltrate IMEI"), (16000, "Request Subscriber ID"),
       (24000, "Query Cell ID")] := by
  simp [simState3, simState2_exec, simState2_now]

theorem simTrace0_eq (omega : Nat → Except Unit StkCommand) :
    simTrace omega initState 0 = (simState0 omega, 1) := rfl

theorem simTrace1_eq (omega : Nat → Except Unit StkCommand) :
    simTrace omega initState 1 = (simState1 omega, 2) := by
  show tick omega (simTrace omega initState 0) = _
  rw [simTrace0_eq]
  exact schedTickStep omega (simState0 omega) 1 "Exfiltrate IMEI"
    (simState0_armed omega) (by decide) rfl

theorem simTrace2_eq (omega : Nat → Except Unit StkCommand) :
    simTrace omega initState 2 = (simState2 omega, 3) := by
  show tick omega (simTrace omega initState 1) = _
  rw [simTrace1_eq]
  exact schedTickStep omega (simState1 omega) 2 "Request Subscriber ID"
    (simState1_armed omega) (by decide) rfl

theorem simTrace3_eq (omega : Nat → Except Unit StkCommand) :
    simTrace omega initState 3 = (simState3 omega, 4) := by
  show tick omega (simTrace omega initState 2) = _
  rw [simTrace2_eq]
  exact schedTickStep omega (simState2 omega) 3 "Query Cell ID"
    (simState2_armed omega) (by decide) rfl

theorem simTrace4_eq (omega : Nat → Except Unit StkCommand) :
    simTrace omega initState 4 = (simState4 omega, 4) := by
  show tick omega (simTrace omega initState 3) = _
  rw [simTrace3_eq]
  exact schedTickEnd omega (simState3 omega) (simState3_armed omega)

/-- Claim C7: for every sequence of per-step oracle outcomes, start() sets
running=true, logs the start notice, executes step 0 of the fixed
four-command list immediately at time 0, then triggers steps 1, 2 and 3 in
list order exactly 8000 time-units apart (8000, 16000, 24000); on the tick
after the cursor passes the last command no step executes — the trigger
trace is unchanged — and the scheduler logs completion, clears the running
flag and cancels the timer. -/
theorem scheduler_executes_steps_in_order_then_stops
    (omega : Nat → Except Unit StkCommand) :
    (simTrace omega initState 0).1.isRunning = true ∧
    ({ type := LogType.SYS_LOG,
       content := "[SYSTEM] Starting automated vulnerability research sequence (Non-Root)..." }
        : HistoryItem) ∈ (simTrace omega initState 0).1.history ∧
    (simTrace omega initState 0).1.execTrace = [(0, "Get Location")] ∧
    (simTrace omega initState 1).1.execTrace =
      [(0, "Get Location"), (8000, "Exfiltrate IMEI")] ∧
    (simTrace omega initState 2).1.execTrace =
      [(0, "Get Location"), (8000, "Exfiltrate IMEI"), (16000, "Request Subscriber ID")] ∧
    (simTrace omega initState 3).1.execTrace =
      [(0, "Get Location"), (8000, "Exfiltrate IMEI"), (16000, "Request Subscriber ID"),
       (24000, "Query Cell ID")] ∧
    (simTrace omega initState 4).1.execTrace = (simTrace omega initState 3).1.execTrace ∧
    ({ type := LogType.SUCCESS,
       content := "[SYSTEM] Extensive audit sequence completed." } : HistoryItem)
      ∈ (simTrace omega initState 4).1.history ∧
    (simTrace omega initState 4).1.isRunning = false ∧
    (simTrace omega initState 4).1.intervalArmed = false := by
  refine ⟨?_, ?_, ?_, ?_, ?_, ?_, ?_, ?_, ?_, ?_⟩
  · rw [simTrace0_eq]
    exact simState0_run omega
  · rw [simTrace0_eq]
    exact mem_history_execCmd _ _ _ _ _ _ (by simp [simStartState, addLog])
  · rw [simTrace0_eq]
    exact simState0_exec omega
  · rw [simTrace1_eq]
    exact simState1_exec omega
  · rw [simTrace2_eq]
    exact simState2_exec omega
  · rw [simTrace3_eq]
    exact simState3_exec omega
  · rw [simTrace4_eq, simTrace3_eq]
    simp [simState4, stopSimulation, addLog]
  · rw [simTrace4_eq]
    simp [simState4, stopSimulation, addLog]
  · rw [simTrace4_eq]
    simp [simState4, stopSimulation, addLog]
  · rw [simTrace4_eq]
    simp [simState4, stopSimulation, addLog]
